import Mathlib

/-!
Verification of the Unicode Text Segmentation & Statistics Engine of
`src/main.cpp` (`CodeEditor::updateStats`).

A text snapshot is a list of Unicode scalar values (`List Nat`).  The
counting loops of `updateStats` (lines 150-186 of `src/main.cpp`) are
embedded directly: the word loop counts, for each segment produced by the
word break iterator, whether its ICU rule status differs from
`UBRK_WORD_NONE`; the grapheme loop counts the successful `next()` calls of
the character break iterator.  The construction of each ICU break iterator
can fail; `updateStats` guards each loop with `U_SUCCESS(status) && iter`,
which is embedded as a Boolean flag per iterator.

The ICU segmentation rules themselves are not part of this repository, so
they are modelled from the spec (§4.1): maximal runs between rule-derived
boundaries, word-like classification by letter/number/Kana/ideograph
content, grapheme clusters gluing combining marks and ZWJ sequences.
-/

namespace CodeEditor

/-- Character classes, modelled from the spec: "letters, numbers, Katakana,
Hiragana, or ideographic characters" are word-like content. -/
def isLatinLetter (c : Nat) : Bool :=
  (65 ≤ c && c ≤ 90) || (97 ≤ c && c ≤ 122)

def isDigitChar (c : Nat) : Bool := 48 ≤ c && c ≤ 57

def isHiragana (c : Nat) : Bool := 0x3041 ≤ c && c ≤ 0x3096

def isKatakana (c : Nat) : Bool := 0x30A1 ≤ c && c ≤ 0x30FA

def isIdeograph (c : Nat) : Bool := 0x4E00 ≤ c && c ≤ 0x9FFF

/-- Combining marks (Unicode block Combining Diacritical Marks). -/
def isCombiningMark (c : Nat) : Bool := 0x300 ≤ c && c ≤ 0x36F

/-- Zero width joiner scalar value. -/
def ZWJ : Nat := 0x200D

def isSpaceChar (c : Nat) : Bool :=
  c = 32 || c = 9 || c = 10 || c = 13 || c = 0x3000

/-- Modelled from the spec: a scalar value carrying word-like content
(letters, numbers, Katakana, Hiragana, or ideographic characters). -/
def isWordChar (c : Nat) : Bool :=
  isLatinLetter c || isDigitChar c || isHiragana c || isKatakana c ||
    isIdeograph c

/-- Coarse character class used by the word-mode boundary rules: word-like
content, whitespace, and everything else. -/
def wordCharClass (c : Nat) : Nat :=
  if isWordChar c then 0 else if isSpaceChar c then 1 else 2

/-- Modelled from the spec: the word break rules place no boundary between
two scalars of the same class, and a combining mark extends the preceding
segment. -/
def wordGlue (c1 c2 : Nat) : Bool :=
  wordCharClass c1 == wordCharClass c2 || isCombiningMark c2

/-- Modelled from the spec: grapheme cluster rules keep a base character
with its combining marks and keep ZWJ sequences together. -/
def graphemeGlue (c1 c2 : Nat) : Bool :=
  isCombiningMark c2 || c1 == ZWJ || c2 == ZWJ

/-- Partition a snapshot into the maximal runs between adjacent
rule-derived boundaries: consecutive scalars stay in one segment exactly
when the glue relation holds between them. -/
def chunkGlue (R : Nat → Nat → Bool) : List Nat → List (List Nat)
  | [] => []
  | [c] => [[c]]
  | c1 :: c2 :: rest =>
    match chunkGlue R (c2 :: rest) with
    | [] => [[c1]]
    | g :: gs => if R c1 c2 then (c1 :: g) :: gs else [c1] :: g :: gs

/-- Locale-sensitive rule set selected for one compute call: the glue
relations of the two analyzers and the word-like content class. -/
structure SegmentationRules where
  wordGlueR : Nat → Nat → Bool
  wordLikeR : Nat → Bool
  graphemeGlueR : Nat → Nat → Bool

/-- Rules of the default locale. -/
def defaultRules : SegmentationRules :=
  ⟨wordGlue, isWordChar, graphemeGlue⟩

/-- Word-mode segments of a snapshot. -/
def wordSegments (rules : SegmentationRules) (s : List Nat) :
    List (List Nat) :=
  chunkGlue rules.wordGlueR s

/-- Classification of one word-mode segment: word-like iff its content
holds word-like scalars. -/
def segIsWordLike (rules : SegmentationRules) (seg : List Nat) : Bool :=
  seg.any rules.wordLikeR

/-- ICU rule status constant for non-word segments (ubrk.h). -/
def UBRK_WORD_NONE : Nat := 0

/-- ICU rule status constant for letter segments (ubrk.h). -/
def UBRK_WORD_LETTER : Nat := 200

/-- Rule status reported by the word break iterator for one segment; the
spec states the word-like classification exactly mirrors distinguishing
rule status ≠ none from none. -/
def ruleStatusOf (rules : SegmentationRules) (seg : List Nat) : Nat :=
  if segIsWordLike rules seg then UBRK_WORD_LETTER else UBRK_WORD_NONE

/-- Rule statuses the word break iterator yields, one per segment, in the
order the `next()` loop visits them. -/
def wordStatuses (rules : SegmentationRules) (s : List Nat) : List Nat :=
  (wordSegments rules s).map (ruleStatusOf rules)

/-- Embedding of the word-count loop of `updateStats` (src/main.cpp
lines 159-166): iterate the boundaries, incrementing the count whenever
the segment's rule status is not `UBRK_WORD_NONE`. -/
def countWordLoop : List Nat → Nat
  | [] => 0
  | st :: rest =>
    (if st ≠ UBRK_WORD_NONE then 1 else 0) + countWordLoop rest

/-- Grapheme clusters of a snapshot. -/
def graphemeClusters (rules : SegmentationRules) (s : List Nat) :
    List (List Nat) :=
  chunkGlue rules.graphemeGlueR s

/-- Boundary offsets determined by a segment list, starting at a given
offset: one boundary before each segment and one final boundary. -/
def boundariesFrom (off : Nat) : List (List Nat) → List Nat
  | [] => [off]
  | seg :: rest => off :: boundariesFrom (off + seg.length) rest

/-- Boundary sequence of an analyzer: starts at 0, one offset per segment
boundary, ending at the snapshot length. -/
def boundariesOf (segs : List (List Nat)) : List Nat :=
  boundariesFrom 0 segs

/-- Boundary sequence the grapheme analyzer produces for a snapshot. -/
def graphemeBoundaries (rules : SegmentationRules) (s : List Nat) :
    List Nat :=
  boundariesOf (graphemeClusters rules s)

/-- Embedding of the grapheme-count loop of `updateStats` (src/main.cpp
lines 177-180): `first()` yields the head boundary, each successful
`next()` yields one further boundary and increments the count once. -/
def countGraphemeLoop : List Nat → Nat
  | [] => 0
  | _b :: rest => rest.length

/-- Result value shown in the status bar. -/
structure StatisticsResult where
  wordCount : Nat
  graphemes : Nat
deriving Repr, DecidableEq

/-- Embedding of `CodeEditor::updateStats` (src/main.cpp lines 141-187)
for a given rule set.  `wordIterOk` and `graphemeIterOk` stand for the
`U_SUCCESS(status) && iter` guards on the two break-iterator
constructions; each count starts at 0 and its loop runs only under its
guard, and both counts are then packaged and displayed together. -/
def updateStatsWith (rules : SegmentationRules)
    (wordIterOk graphemeIterOk : Bool) (s : List Nat) : StatisticsResult :=
  let wordCount :=
    if wordIterOk then countWordLoop (wordStatuses rules s) else 0
  let graphemes :=
    if graphemeIterOk then countGraphemeLoop (graphemeBoundaries rules s)
    else 0
  ⟨wordCount, graphemes⟩

/-- `updateStats` at the default-locale rules, as the source always runs it
(`icu::Locale::getDefault()`). -/
def updateStats (wordIterOk graphemeIterOk : Bool) (s : List Nat) :
    StatisticsResult :=
  updateStatsWith defaultRules wordIterOk graphemeIterOk s

/-- Editor/status-bar state visible to `updateStats`: the widget text it
reads (src/main.cpp line 142) and the status-bar message it writes
(lines 183-186). -/
structure EditorState where
  text : List Nat
  statusMessage : String
deriving Repr, DecidableEq

/-- Rendering of the result in the status-bar message (src/main.cpp
lines 183-186): both counts are always formatted into one message. -/
def renderStats (r : StatisticsResult) : String :=
  "Words: " ++ toString r.wordCount ++ " | Characters: " ++
    toString r.graphemes

/-- The whole `updateStats` slot as a state transformer: read the widget
text, compute both counts, show the message.  The text is not modified. -/
def updateStatsSlot (rules : SegmentationRules) (wordIterOk graphemeIterOk : Bool)
    (st : EditorState) : EditorState :=
  ⟨st.text, renderStats (updateStatsWith rules wordIterOk graphemeIterOk st.text)⟩

/-- Run a sequence of `updateStats` calls, each with its own iterator
construction outcomes, over the editor state. -/
def runCalls (rules : SegmentationRules) (calls : List (Bool × Bool))
    (st : EditorState) : EditorState :=
  match calls with
  | [] => st
  | (w, g) :: rest => runCalls rules rest (updateStatsSlot rules w g st)

/-- Modelled from the spec: ICU locale resolution for
`BreakIterator::createWordInstance` / `createCharacterInstance` (not part
of this repository) — a supported locale selects its own rule set, an
unsupported one silently falls back to the default locale. -/
structure LocaleEnv where
  supported : String → Bool
  rulesFor : String → SegmentationRules
  defaultLocale : String

/-- Modelled from the spec: substitute the default locale for an
unsupported one; never signal an error. -/
def resolveLocale (env : LocaleEnv) (l : String) : String :=
  if env.supported l then l else env.defaultLocale

/-- Compute statistics for a snapshot under a requested locale: resolve
the locale, select its rules, and run the statistics computation.  Total:
no `UnsupportedLocale` failure can reach the caller (the result type has
no error channel). -/
def computeWithLocale (env : LocaleEnv) (l : String)
    (wordIterOk graphemeIterOk : Bool) (s : List Nat) : StatisticsResult :=
  updateStatsWith (env.rulesFor (resolveLocale env l)) wordIterOk
    graphemeIterOk s

/-- Concrete locale environment used to witness the fallback theorem. -/
def sampleLocaleEnv : LocaleEnv :=
  ⟨fun l => l == "en", fun _ => defaultRules, "en"⟩

/-! ### Helper lemmas -/

theorem runCalls_text (rules : SegmentationRules)
    (calls : List (Bool × Bool)) :
    ∀ st : EditorState, (runCalls rules calls st).text = st.text := by
  induction calls with
  | nil => intro st; rfl
  | cons c rest ih =>
    intro st
    cases c with
    | mk w g => exact (ih (updateStatsSlot rules w g st)).trans rfl

theorem countWordLoop_eq_countP (l : List Nat) :
    countWordLoop l = l.countP (fun st => st != UBRK_WORD_NONE) := by
  induction l with
  | nil => rfl
  | cons st rest ih =>
    simp only [countWordLoop, List.countP_cons, ih]
    by_cases h : st = UBRK_WORD_NONE <;> simp [h, Nat.add_comm]

theorem chunkGlue_ne_nil (R : Nat → Nat → Bool) (c : Nat) (cs : List Nat) :
    chunkGlue R (c :: cs) ≠ [] := by
  cases cs with
  | nil => simp [chunkGlue]
  | cons c2 rest =>
    simp only [chunkGlue]
    split
    · simp
    · split <;> simp

theorem chunkGlue_length_le (R : Nat → Nat → Bool) (s : List Nat) :
    (chunkGlue R s).length ≤ s.length := by
  induction s with
  | nil => simp [chunkGlue]
  | cons c cs ih =>
    cases cs with
    | nil => simp [chunkGlue]
    | cons c2 rest =>
      simp only [chunkGlue]
      split
      · simp only [List.length_cons, List.length_nil]
        omega
      · rename_i g gs h
        rw [h] at ih
        simp only [List.length_cons] at ih
        split <;> simp only [List.length_cons] <;> omega

theorem boundariesFrom_length (segs : List (List Nat)) :
    ∀ off : Nat, (boundariesFrom off segs).length = segs.length + 1 := by
  induction segs with
  | nil => intro off; rfl
  | cons seg rest ih =>
    intro off
    show (off :: boundariesFrom (off + seg.length) rest).length =
      (seg :: rest).length + 1
    rw [List.length_cons, List.length_cons, ih]

theorem countGraphemeLoop_boundariesFrom (segs : List (List Nat))
    (off : Nat) :
    countGraphemeLoop (boundariesFrom off segs) = segs.length := by
  cases segs with
  | nil => rfl
  | cons seg rest =>
    simp only [boundariesFrom, countGraphemeLoop, boundariesFrom_length,
      List.length_cons]

/-! ### Claims -/

/-- C1: for every snapshot, the word count computed by `updateStats` equals
the number of word-mode segments whose classification is word-like (rule
status different from `UBRK_WORD_NONE`); non-word segments contribute
nothing to the count. -/
theorem wordCount_eq_wordLike_segments (rules : SegmentationRules)
    (g : Bool) (s : List Nat) :
    (updateStatsWith rules true g s).wordCount =
      (wordSegments rules s).countP (segIsWordLike rules) := by
  simp only [updateStatsWith, if_pos, wordStatuses,
    countWordLoop_eq_countP, List.countP_map]
  apply List.countP_congr
  intro seg _
  simp only [Function.comp, ruleStatusOf]
  by_cases h : segIsWordLike rules seg = true <;>
    simp [h, UBRK_WORD_LETTER, UBRK_WORD_NONE]

/-- C2: for every non-empty snapshot the grapheme count computed by
`updateStats` equals the number of boundaries produced by the grapheme
analyzer minus one; for the empty snapshot it is 0. -/
theorem graphemeCount_eq_boundaries_sub_one (rules : SegmentationRules)
    (w : Bool) (s : List Nat) :
    (s ≠ [] →
      (updateStatsWith rules w true s).graphemes =
        (graphemeBoundaries rules s).length - 1) ∧
    (s = [] → (updateStatsWith rules w true s).graphemes = 0) := by
  constructor
  · intro _
    simp only [updateStatsWith, if_pos, graphemeBoundaries, boundariesOf,
      countGraphemeLoop_boundariesFrom, boundariesFrom_length]
    omega
  · intro h
    subst h
    rfl

/-- C2 witness: evaluated on the snapshot "ab" and on the empty
snapshot. -/
theorem graphemeCount_eq_boundaries_sub_one_witness :
    ((updateStatsWith defaultRules true true [97, 98]).graphemes =
        (graphemeBoundaries defaultRules [97, 98]).length - 1) ∧
    ((updateStatsWith defaultRules true true []).graphemes = 0) :=
  ⟨(graphemeCount_eq_boundaries_sub_one defaultRules true [97, 98]).1
      (by decide),
   (graphemeCount_eq_boundaries_sub_one defaultRules true []).2 rfl⟩

/-- C3 counterexample: the claim says a failure in either analyzer fails
the whole call and the result never pairs one computed count with a
sentinel.  On the snapshot "h" with the word break iterator's construction
failed, `updateStats` still returns a result: the grapheme count is
computed (1) while the word count is left at the sentinel 0, although the
word count of this snapshot on the success path is 1. -/
theorem updateStats_partial_result_exists :
    updateStats false true [104] = ⟨0, 1⟩ ∧
    (updateStats true true [104]).wordCount = 1 := by
  decide

/-- C3 amended: a failure of an analyzer's construction does not fail the
call; the failed analyzer's count is left at the sentinel 0 while the
other count is computed exactly as on the success path, and the two are
still packaged into one result. -/
theorem updateStats_failure_sentinel (rules : SegmentationRules)
    (s : List Nat) :
    updateStatsWith rules false true s =
      ⟨0, (updateStatsWith rules true true s).graphemes⟩ ∧
    updateStatsWith rules true false s =
      ⟨(updateStatsWith rules true true s).wordCount, 0⟩ ∧
    updateStatsWith rules false false s = ⟨0, 0⟩ :=
  ⟨rfl, rfl, rfl⟩

/-- C4: computing with an unsupported locale is recovered locally by
substituting the default locale; the caller sees no error, and the result
equals the result of computing the same snapshot with the default
locale. -/
theorem computeWithLocale_fallback (env : LocaleEnv) (l : String)
    (w g : Bool) (s : List Nat) (h : env.supported l = false) :
    computeWithLocale env l w g s =
      computeWithLocale env env.defaultLocale w g s := by
  simp [computeWithLocale, resolveLocale, h]

/-- C4 witness: the locale "xx" is unsupported in the sample environment
and falls back to the default locale "en". -/
theorem computeWithLocale_fallback_witness :
    sampleLocaleEnv.supported "xx" = false ∧
    computeWithLocale sampleLocaleEnv "xx" true true [104] =
      computeWithLocale sampleLocaleEnv "en" true true [104] :=
  ⟨by decide,
   computeWithLocale_fallback sampleLocaleEnv "xx" true true [104]
     (by decide)⟩

/-- C5: computing statistics for the empty snapshot yields wordCount 0
and graphemeCount 0; the empty snapshot's boundary sequence is [0] and it
has zero segments. -/
theorem updateStats_empty (rules : SegmentationRules) :
    updateStatsWith rules true true [] = ⟨0, 0⟩ ∧
    graphemeBoundaries rules [] = [0] ∧
    wordSegments rules [] = [] ∧
    graphemeClusters rules [] = [] :=
  ⟨rfl, rfl, rfl, rfl⟩

/-- C6: the snapshot "café" with a combining acute accent (scalar values
c, a, f, e, U+0301) yields wordCount 1 and graphemeCount 4; the combining
mark merges with "e" into the last grapheme cluster. -/
theorem updateStats_cafe :
    updateStats true true [99, 97, 102, 101, 0x301] = ⟨1, 4⟩ ∧
    (graphemeClusters defaultRules [99, 97, 102, 101, 0x301]).getLast? =
      some [101, 0x301] := by
  decide

/-- C7: the computation is a pure function of snapshot and locale rules:
two calls on states holding the same text produce the same result and the
same displayed message, regardless of any other calls run between them
(no call ever changes the text, so interposed calls cannot influence a
later call), and repeating a call is idempotent. -/
theorem updateStats_deterministic (rules : SegmentationRules)
    (w g : Bool) (st1 st2 : EditorState) (calls : List (Bool × Bool))
    (h : st1.text = st2.text) :
    updateStatsWith rules w g st1.text =
      updateStatsWith rules w g st2.text ∧
    (updateStatsSlot rules w g st1).statusMessage =
      (updateStatsSlot rules w g st2).statusMessage ∧
    updateStatsSlot rules w g (runCalls rules calls st1) =
      updateStatsSlot rules w g
        ⟨st1.text, (runCalls rules calls st1).statusMessage⟩ ∧
    updateStatsSlot rules w g (updateStatsSlot rules w g st1) =
      updateStatsSlot rules w g st1 := by
  refine ⟨by rw [h], by simp [updateStatsSlot, h], ?_, ?_⟩
  · simp [updateStatsSlot, runCalls_text]
  · simp [updateStatsSlot]

/-- C7 witness: evaluated on two states with equal text "h" but different
status messages, with one interposed call. -/
theorem updateStats_deterministic_witness :
    (EditorState.mk [104] "a").text = (EditorState.mk [104] "b").text ∧
    updateStatsWith defaultRules true true
        (EditorState.mk [104] "a").text =
      updateStatsWith defaultRules true true
        (EditorState.mk [104] "b").text :=
  ⟨rfl,
   (updateStats_deterministic defaultRules true true ⟨[104], "a"⟩
     ⟨[104], "b"⟩ [(true, true)] rfl).1⟩

/-- C8: for every snapshot the grapheme count is at most the number of
Unicode scalar values in it (no grapheme cluster is shorter than one
scalar value). -/
theorem graphemeCount_le_scalar_count (rules : SegmentationRules)
    (w g : Bool) (s : List Nat) :
    (updateStatsWith rules w g s).graphemes ≤ s.length := by
  cases g with
  | false => simp [updateStatsWith]
  | true =>
    simp only [updateStatsWith, if_pos, graphemeBoundaries, boundariesOf,
      countGraphemeLoop_boundariesFrom, graphemeClusters]
    exact chunkGlue_length_le rules.graphemeGlueR s

/-- C9: the statistics computation is total: whatever the outcome of the
two iterator constructions, a result is produced and displayed; a failed
construction leaves its count at 0 and does not perturb the other count,
which is computed as on the success path. -/
theorem updateStats_total (rules : SegmentationRules) (w g : Bool)
    (st : EditorState) :
    (w = false → (updateStatsWith rules w g st.text).wordCount = 0) ∧
    (g = false → (updateStatsWith rules w g st.text).graphemes = 0) ∧
    (updateStatsWith rules w g st.text).graphemes =
      (updateStatsWith rules true g st.text).graphemes ∧
    (updateStatsWith rules w g st.text).wordCount =
      (updateStatsWith rules w true st.text).wordCount ∧
    (updateStatsSlot rules w g st).statusMessage =
      renderStats (updateStatsWith rules w g st.text) := by
  refine ⟨?_, ?_, rfl, rfl, rfl⟩
  · intro hw; subst hw; rfl
  · intro hg; subst hg; rfl

/-- C9 witness: evaluated with both constructions failed on the snapshot
"h": both counts are 0 and the message still shows both. -/
theorem updateStats_total_witness :
    (updateStatsWith defaultRules false false [104]).wordCount = 0 ∧
    (updateStatsWith defaultRules false false [104]).graphemes = 0 :=
  ⟨(updateStats_total defaultRules false false ⟨[104], ""⟩).1 rfl,
   (updateStats_total defaultRules false false ⟨[104], ""⟩).2.1 rfl⟩

/-- C10: for every non-empty snapshot, when the grapheme break iterator is
constructed successfully the grapheme count is at least 1. -/
theorem graphemeCount_pos (rules : SegmentationRules) (w : Bool)
    (s : List Nat) (h : s ≠ []) :
    1 ≤ (updateStatsWith rules w true s).graphemes := by
  cases s with
  | nil => exact absurd rfl h
  | cons c cs =>
    simp only [updateStatsWith, if_pos, graphemeBoundaries, boundariesOf,
      countGraphemeLoop_boundariesFrom, graphemeClusters]
    exact List.length_pos.mpr (chunkGlue_ne_nil rules.graphemeGlueR c cs)

/-- C10 witness: the one-scalar snapshot "h" has grapheme count at
least 1. -/
theorem graphemeCount_pos_witness :
    ([104] : List Nat) ≠ [] ∧
    1 ≤ (updateStatsWith defaultRules true true [104]).graphemes :=
  ⟨by decide, graphemeCount_pos defaultRules true [104] (by decide)⟩

end CodeEditor
